import Mathlib

/-! Pausify: the voice-activity detector behind `webrtc_vad_wrapper.cpp`.

A shallow embedding of `app/src/main/cpp/webrtc_vad_wrapper.cpp`: the detector
instance `WebRtcVadInst`, the five stub functions `WebRtcVad_*` and the five JNI
entry points `native*` that the host calls as create / initialize /
setAggressiveness / processFrame / destroy.

Conventions of the embedding.

* A `VadInst*` (and the `jlong` handle that carries it) is an
  `Option WebRtcVadInst`: `none` is `nullptr` / `0`, `some inst` is a pointer to
  a live object whose fields are `inst`.  A function that receives the pointer
  returns the object as it is after the call, next to its C return value.
* `int`, `jint` and `long long` values are `Int`; the `long long` arithmetic of
  the energy loop is reduced with `wrap64` after every operation.
* A `jshortArray` is an `Option (List Int)`: `none` is a null reference,
  `some frame` an array whose elements are `frame`; `isInt16Frame` says that the
  elements are 16-bit values.
* Reading `audio_frame[i]` with `i` past the end of the array has no defined
  result in the source.  The functions that read the array return an `Option`,
  and `none` stands for such a read.
* The `LOGD` / `LOGE` calls only write to the Android log and are left out.
* Only destroy can meet a handle whose object is already deleted; it works on a
  `HandleTarget`, and `none` stands for deleting an object twice.
-/

namespace Pausify

/-! ## Data model -/

/-- The detector instance, `struct WebRtcVadInst` of the source. -/
structure WebRtcVadInst where
  mode : Int
  sample_rate : Int
  initialized : Bool
  deriving DecidableEq, Repr

/-- A `VadInst*`, or the `jlong` it is cast to: `none` is the null pointer. -/
abbrev VadHandle := Option WebRtcVadInst

/-- A `jshortArray` reference: `none` is `nullptr`. -/
abbrev jshortArray := Option (List Int)

/-- What a `jlong` handle refers to when destroy is called with it: the value
`0`, a live object (the `none` and `some inst` of `VadHandle`), or an object
that an earlier destroy has already deleted. -/
inductive HandleTarget where
  | null
  | live (inst : WebRtcVadInst)
  | destroyed
  deriving DecidableEq, Repr

/-- The target of a handle whose object, if any, is live. -/
def VadHandle.target : VadHandle → HandleTarget
  | none => HandleTarget.null
  | some inst => HandleTarget.live inst

/-- The part of the `JNIEnv` that `nativeProcessFrame` depends on:
`GetShortArrayElements` hands out the elements of the array, or a null pointer
when the virtual machine cannot provide them. -/
structure JNIEnv where
  elementsUnavailable : Bool
  deriving DecidableEq, Repr

/-- The call `env->GetShortArrayElements(audio_frame, nullptr)`. -/
def JNIEnv.GetShortArrayElements (env : JNIEnv) (audio_frame : List Int) :
    Option (List Int) :=
  if env.elementsUnavailable then none else some audio_frame

/-- Every element of the frame is a 16-bit signed value. -/
def isInt16Frame (frame : List Int) : Prop :=
  ∀ s ∈ frame, -32768 ≤ s ∧ s ≤ 32767

instance (frame : List Int) : Decidable (isInt16Frame frame) := by
  unfold isInt16Frame; infer_instance

/-- Reduction of an integer to the range of a signed 64-bit `long long`. -/
def wrap64 (x : Int) : Int :=
  (x + 9223372036854775808) % 18446744073709551616 - 9223372036854775808

/-! ## The stub detector (`WebRtcVad_*`) -/

/-- The constructor `WebRtcVadInst()`: `mode(1), sample_rate(16000), initialized(false)`. -/
def WebRtcVadInst.new : WebRtcVadInst :=
  { mode := 1, sample_rate := 16000, initialized := false }

/-- The function `WebRtcVad_Create`: `return new WebRtcVadInst();`. -/
def WebRtcVad_Create : VadHandle :=
  some WebRtcVadInst.new

/-- The function `WebRtcVad_Init`: the return value and the object afterwards. -/
def WebRtcVad_Init (handle : VadHandle) : Int × VadHandle :=
  match handle with
  | none => (-1, none)
  | some inst => (0, some { inst with initialized := true })

/-- The function `WebRtcVad_set_mode`: the return value and the object afterwards. -/
def WebRtcVad_set_mode (handle : VadHandle) (mode : Int) : Int × VadHandle :=
  match handle with
  | none => (-1, none)
  | some inst =>
    if !inst.initialized then (-1, some inst)
    else if mode < 0 ∨ mode > 3 then (-1, some inst)
    else (0, some { inst with mode := mode })

/-- The loop `for (size_t i = 0; i < frame_length; i++) energy += (long long)audio_frame[i] * audio_frame[i];`
of `WebRtcVad_Process`, entered at index `i` with accumulator `energy` and
`remaining = frame_length - i` iterations to go.  `none`: the loop reads past
the end of the array. -/
def energyLoop (audio_frame : List Int) : Nat → Nat → Int → Option Int
  | 0, _, energy => some energy
  | remaining + 1, i, energy =>
    match audio_frame[i]? with
    | none => none
    | some s => energyLoop audio_frame remaining (i + 1) (wrap64 (energy + wrap64 (s * s)))

/-- The `switch (handle->mode)` of `WebRtcVad_Process` that selects the threshold. -/
def threshold (mode : Int) : Int :=
  if mode = 0 then 1000000
  else if mode = 1 then 2000000
  else if mode = 2 then 4000000
  else if mode = 3 then 8000000
  else 2000000

/-- The function `WebRtcVad_Process`.  It never writes through `handle`, so the
object afterwards is the object before; `none` is a read past the end of
`audio_frame`.  The parameter `fs` is not used by the body. -/
def WebRtcVad_Process (handle : VadHandle) (_fs : Int) (audio_frame : Option (List Int))
    (frame_length : Nat) : Option (Int × VadHandle) :=
  match handle with
  | none => some (-1, none)
  | some inst =>
    if !inst.initialized then some (-1, some inst)
    else
      match audio_frame with
      | none => some (-1, some inst)
      | some frame =>
        match energyLoop frame frame_length 0 0 with
        | none => none
        | some energy =>
          some (if energy > threshold inst.mode then 1 else 0, some inst)

/-- The function `WebRtcVad_Free`: `delete handle;`.  Deleting the null pointer
does nothing, deleting a live object leaves a pointer to a destroyed object, and
deleting an object a second time has no defined result (`none`). -/
def WebRtcVad_Free (handle : HandleTarget) : Option HandleTarget :=
  match handle with
  | HandleTarget.null => some HandleTarget.null
  | HandleTarget.live _ => some HandleTarget.destroyed
  | HandleTarget.destroyed => none

/-! ## The JNI entry points (`Java_com_rohit_voicepause_audio_WebRtcVadWrapper_native*`) -/

/-- The entry point `nativeCreateVad` (create): the handle returned to the caller. -/
def nativeCreateVad : VadHandle :=
  match WebRtcVad_Create with
  | none => none
  | some inst => some inst

/-- The entry point `nativeInitVad` (initialize): `sample_rate` is only logged. -/
def nativeInitVad (vad_handle : VadHandle) (_sample_rate : Int) : Int × VadHandle :=
  match vad_handle with
  | none => (-1, none)
  | some inst =>
    let result := WebRtcVad_Init (some inst)
    if result.1 ≠ 0 then (result.1, result.2)
    else (0, result.2)

/-- The entry point `nativeSetAggressiveness` (setAggressiveness). -/
def nativeSetAggressiveness (vad_handle : VadHandle) (aggressiveness : Int) :
    Int × VadHandle :=
  match vad_handle with
  | none => (-1, none)
  | some inst =>
    if aggressiveness < 0 ∨ aggressiveness > 3 then (-1, some inst)
    else
      let result := WebRtcVad_set_mode (some inst) aggressiveness
      if result.1 ≠ 0 then (result.1, result.2)
      else (0, result.2)

/-- The `switch (frame_size)` of `nativeProcessFrame`: the sample rate of a
20 ms frame, `none` in the `default` case. -/
def sampleRateOfFrameSize (frame_size : Int) : Option Int :=
  if frame_size = 160 then some 8000
  else if frame_size = 320 then some 16000
  else if frame_size = 640 then some 32000
  else if frame_size = 960 then some 48000
  else none

/-- The entry point `nativeProcessFrame` (processFrame): the value returned and
the object afterwards, `none` when the energy loop reads past the end of the array. -/
def nativeProcessFrame (env : JNIEnv) (vad_handle : VadHandle) (audio_frame : jshortArray)
    (frame_size : Int) : Option (Int × VadHandle) :=
  match vad_handle with
  | none => some (-1, none)
  | some inst =>
    match audio_frame with
    | none => some (-1, some inst)
    | some frame =>
      match env.GetShortArrayElements frame with
      | none => some (-1, some inst)
      | some audio_data =>
        match sampleRateOfFrameSize frame_size with
        | none => some (-1, some inst)
        | some sample_rate =>
          match WebRtcVad_Process (some inst) sample_rate (some audio_data) frame_size.toNat with
          | none => none
          | some (vad_result, vad) =>
            if vad_result < 0 then some (vad_result, vad)
            else some (vad_result, vad)

/-- The entry point `nativeDestroyVad` (destroy): the value returned and what
the caller's handle refers to afterwards.  The handle is passed by value, so
the caller still holds the same number after the object is deleted; `none`
when `WebRtcVad_Free` deletes an object that is already destroyed. -/
def nativeDestroyVad (vad_handle : HandleTarget) : Option (Int × HandleTarget) :=
  match vad_handle with
  | HandleTarget.null => some (0, HandleTarget.null)
  | target =>
    match WebRtcVad_Free target with
    | none => none
    | some after => some (0, after)

/-! ## Sequences of calls -/

/-- A call that the host makes on a handle between create and destroy. -/
inductive Call where
  | init (sample_rate : Int)
  | setAggressiveness (aggressiveness : Int)
  | processFrame (env : JNIEnv) (audio_frame : jshortArray) (frame_size : Int)

/-- The object behind the handle after one call; `none` when the call has no
defined result. -/
def applyCall (vad_handle : VadHandle) : Call → Option VadHandle
  | Call.init sample_rate => some (nativeInitVad vad_handle sample_rate).2
  | Call.setAggressiveness aggressiveness =>
    some (nativeSetAggressiveness vad_handle aggressiveness).2
  | Call.processFrame env audio_frame frame_size =>
    (nativeProcessFrame env vad_handle audio_frame frame_size).map Prod.snd

/-- The object behind the handle after a sequence of calls made in order. -/
def applyCalls (vad_handle : VadHandle) : List Call → Option VadHandle
  | [] => some vad_handle
  | call :: rest => (applyCall vad_handle call).bind (fun after => applyCalls after rest)

/-! ## The specification's vocabulary -/

/-- The energy of a frame as the specification words it: the sum over all
samples of `sample * sample`, as a mathematical integer. -/
def specEnergy (frame : List Int) : Int :=
  (frame.map (fun s => s * s)).sum

/-- The threshold table of the specification (section 4.1, step 4); the table
has no row for a mode outside `0..3`. -/
def specThreshold (mode : Int) : Option Int :=
  if mode = 0 then some 1000000
  else if mode = 1 then some 2000000
  else if mode = 2 then some 4000000
  else if mode = 3 then some 8000000
  else none

/-- The frame lengths of the specification's table (section 4.1, step 2). -/
def supportedFrameLength (n : Int) : Prop :=
  n = 160 ∨ n = 320 ∨ n = 640 ∨ n = 960

instance (n : Int) : Decidable (supportedFrameLength n) := by
  unfold supportedFrameLength; infer_instance

/-- The sample rates of the specification's data model (section 3): a
`sampleRateHz` is one of these. -/
def supportedSampleRate (r : Int) : Prop :=
  r = 8000 ∨ r = 16000 ∨ r = 32000 ∨ r = 48000

instance (r : Int) : Decidable (supportedSampleRate r) := by
  unfold supportedSampleRate; infer_instance

/-- The test frame of the specification's end-to-end property (section 8):
`n` samples alternating `+32767`, `-32767`. -/
def alternatingFrame (n : Nat) : List Int :=
  (List.range n).map (fun i => if i % 2 = 0 then 32767 else -32767)

/-! ## Lemmas on the energy loop -/

theorem wrap64_of_range (x : Int) (hlo : -9223372036854775808 ≤ x)
    (hhi : x < 9223372036854775808) : wrap64 x = x := by
  unfold wrap64
  omega

theorem sq_int16_bounds (s : Int) (hlo : -32768 ≤ s) (hhi : s ≤ 32767) :
    0 ≤ s * s ∧ s * s ≤ 1073741824 := by
  constructor
  · exact mul_self_nonneg s
  · nlinarith

theorem isInt16Frame_take (frame : List Int) (k : Nat) (h : isInt16Frame frame) :
    isInt16Frame (frame.take k) :=
  fun s hs => h s (List.mem_of_mem_take hs)

theorem isInt16Frame_drop (frame : List Int) (k : Nat) (h : isInt16Frame frame) :
    isInt16Frame (frame.drop k) :=
  fun s hs => h s (List.mem_of_mem_drop hs)

theorem specEnergy_nil : specEnergy [] = 0 := rfl

theorem specEnergy_cons (s : Int) (frame : List Int) :
    specEnergy (s :: frame) = s * s + specEnergy frame := by
  simp [specEnergy]

theorem specEnergy_bounds (frame : List Int) (h : isInt16Frame frame) :
    0 ≤ specEnergy frame ∧ specEnergy frame ≤ (frame.length : Int) * 1073741824 := by
  induction frame with
  | nil => simp [specEnergy]
  | cons s rest ih =>
    have hs := h s (List.mem_cons_self s rest)
    have hsq := sq_int16_bounds s hs.1 hs.2
    have hrest := ih (fun t ht => h t (List.mem_cons_of_mem s ht))
    rw [specEnergy_cons]
    simp only [List.length_cons, Nat.cast_add, Nat.cast_one]
    constructor
    · omega
    · omega

/-- The loop from index `i` adds the squares of the next `remaining` samples
exactly, as long as the exact total stays below `2^63`. -/
theorem energyLoop_exact (frame : List Int) (h16 : isInt16Frame frame) :
    ∀ (remaining i : Nat) (energy : Int), i + remaining ≤ frame.length → 0 ≤ energy →
      energy + (remaining : Int) * 1073741824 < 9223372036854775808 →
      energyLoop frame remaining i energy
        = some (energy + specEnergy ((frame.drop i).take remaining)) := by
  intro remaining
  induction remaining with
  | zero =>
    intro i energy _ _ _
    simp [energyLoop, specEnergy]
  | succ n ih =>
    intro i energy hlen hnonneg hbound
    have hi : i < frame.length := by omega
    have hs := h16 frame[i] (List.getElem_mem hi)
    have hsq := sq_int16_bounds frame[i] hs.1 hs.2
    have hdrop : frame.drop i = frame[i] :: frame.drop (i + 1) :=
      List.drop_eq_getElem_cons hi
    have hcast : ((n + 1 : Nat) : Int) = (n : Int) + 1 := by push_cast; ring
    rw [hcast] at hbound
    have hn : (0 : Int) ≤ (n : Int) := Int.ofNat_nonneg n
    have hw1 : wrap64 (frame[i] * frame[i]) = frame[i] * frame[i] :=
      wrap64_of_range _ (by omega) (by omega)
    have hw2 : wrap64 (energy + frame[i] * frame[i]) = energy + frame[i] * frame[i] :=
      wrap64_of_range _ (by omega) (by omega)
    simp only [energyLoop, List.getElem?_eq_getElem hi, hw1, hw2]
    rw [ih (i + 1) (energy + frame[i] * frame[i]) (by omega) (by omega) (by omega)]
    rw [hdrop, List.take_succ_cons, specEnergy_cons]
    congr 1
    ring

/-- The loop started as the source starts it, on a frame of at most 960
16-bit samples. -/
theorem energyLoop_start (frame : List Int) (h16 : isInt16Frame frame) (k : Nat)
    (hk : k ≤ frame.length) (hmax : k ≤ 960) :
    energyLoop frame k 0 0 = some (specEnergy (frame.take k)) := by
  have hk2 : (k : Int) ≤ 960 := by exact_mod_cast hmax
  have h := energyLoop_exact frame h16 k 0 0 (by omega) (le_refl 0) (by omega)
  simpa using h

/-- The loop fails exactly when it is asked for more samples than the array holds. -/
theorem energyLoop_eq_none_iff (frame : List Int) :
    ∀ (remaining i : Nat) (energy : Int), i ≤ frame.length →
      (energyLoop frame remaining i energy = none ↔ frame.length < i + remaining) := by
  intro remaining
  induction remaining with
  | zero =>
    intro i energy hi
    simp [energyLoop]
    omega
  | succ n ih =>
    intro i energy hi
    by_cases hlt : i < frame.length
    · simp only [energyLoop, List.getElem?_eq_getElem hlt]
      rw [ih (i + 1) _ (by omega)]
      omega
    · have hnone : frame[i]? = none := List.getElem?_eq_none (by omega)
      simp only [energyLoop, hnone]
      simp
      omega

/-! ## Lemmas on `nativeProcessFrame` -/

/-- Every call that does not reach the energy loop returns `-1`: a null handle. -/
theorem nativeProcessFrame_null_handle (env : JNIEnv) (audio_frame : jshortArray)
    (frame_size : Int) :
    nativeProcessFrame env none audio_frame frame_size = some (-1, none) := rfl

/-- A frame length outside the `switch` is answered with `-1` for every handle. -/
theorem nativeProcessFrame_default_case (env : JNIEnv) (vad_handle : VadHandle)
    (audio_frame : jshortArray) (frame_size : Int)
    (h : sampleRateOfFrameSize frame_size = none) :
    nativeProcessFrame env vad_handle audio_frame frame_size = some (-1, vad_handle) := by
  cases vad_handle with
  | none => rfl
  | some inst =>
    cases audio_frame with
    | none => rfl
    | some frame =>
      cases hget : env.GetShortArrayElements frame with
      | none => simp [nativeProcessFrame, hget]
      | some audio_data => simp [nativeProcessFrame, hget, h]

theorem sampleRateOfFrameSize_eq_none (frame_size : Int)
    (h : ¬ supportedFrameLength frame_size) : sampleRateOfFrameSize frame_size = none := by
  unfold supportedFrameLength at h
  unfold sampleRateOfFrameSize
  simp only [not_or] at h
  simp [h.1, h.2.1, h.2.2.1, h.2.2.2]

theorem sampleRateOfFrameSize_isSome (frame_size : Int)
    (h : supportedFrameLength frame_size) :
    ∃ fs, sampleRateOfFrameSize frame_size = some fs := by
  rcases h with rfl | rfl | rfl | rfl <;> simp [sampleRateOfFrameSize]

/-- An instance that is not initialized is answered with `-1`, whatever the frame. -/
theorem nativeProcessFrame_uninitialized (env : JNIEnv) (inst : WebRtcVadInst)
    (audio_frame : jshortArray) (frame_size : Int) (h : inst.initialized = false) :
    nativeProcessFrame env (some inst) audio_frame frame_size = some (-1, some inst) := by
  cases audio_frame with
  | none => rfl
  | some frame =>
    cases hget : env.GetShortArrayElements frame with
    | none => simp [nativeProcessFrame, hget]
    | some audio_data =>
      cases hfs : sampleRateOfFrameSize frame_size with
      | none => simp [nativeProcessFrame, hget, hfs]
      | some fs => simp [nativeProcessFrame, hget, hfs, WebRtcVad_Process, h]

/-- On an initialized instance, with the elements available and a supported
frame length, the value returned is decided by the energy loop alone. -/
theorem nativeProcessFrame_initialized (env : JNIEnv) (inst : WebRtcVadInst)
    (frame : List Int) (frame_size : Int) (henv : env.elementsUnavailable = false)
    (hinit : inst.initialized = true) (hsup : supportedFrameLength frame_size) :
    nativeProcessFrame env (some inst) (some frame) frame_size
      = (energyLoop frame frame_size.toNat 0 0).map
          (fun energy => (if energy > threshold inst.mode then 1 else 0, some inst)) := by
  obtain ⟨fs, hfs⟩ := sampleRateOfFrameSize_isSome frame_size hsup
  cases hloop : energyLoop frame frame_size.toNat 0 0 with
  | none =>
    simp [nativeProcessFrame, JNIEnv.GetShortArrayElements, henv, hfs, WebRtcVad_Process,
      hinit, hloop]
  | some energy =>
    by_cases hgt : energy > threshold inst.mode
    · simp [nativeProcessFrame, JNIEnv.GetShortArrayElements, henv, hfs, WebRtcVad_Process,
        hinit, hloop, hgt]
    · simp [nativeProcessFrame, JNIEnv.GetShortArrayElements, henv, hfs, WebRtcVad_Process,
        hinit, hloop, hgt]

theorem supportedFrameLength_toNat_le (frame_size : Int)
    (hsup : supportedFrameLength frame_size) :
    frame_size.toNat ≤ 960 ∧ (frame_size.toNat : Int) = frame_size := by
  rcases hsup with rfl | rfl | rfl | rfl <;> decide

/-- The classification of the first `frame_size` samples of a buffer that
holds at least that many. -/
theorem nativeProcessFrame_of_enough (env : JNIEnv) (inst : WebRtcVadInst)
    (frame : List Int) (frame_size : Int) (henv : env.elementsUnavailable = false)
    (hinit : inst.initialized = true) (hsup : supportedFrameLength frame_size)
    (h16 : isInt16Frame frame) (hlen : frame_size ≤ (frame.length : Int)) :
    nativeProcessFrame env (some inst) (some frame) frame_size
      = some (if specEnergy (frame.take frame_size.toNat) > threshold inst.mode then 1 else 0,
          some inst) := by
  have hn := supportedFrameLength_toNat_le frame_size hsup
  have hk : frame_size.toNat ≤ frame.length := by omega
  rw [nativeProcessFrame_initialized env inst frame frame_size henv hinit hsup,
    energyLoop_start frame h16 frame_size.toNat hk hn.1]
  rfl

theorem threshold_eq_of_specThreshold (mode thr : Int) (h : specThreshold mode = some thr) :
    threshold mode = thr := by
  unfold specThreshold at h
  unfold threshold
  split_ifs at h ⊢ <;> simp_all

theorem isInt16Frame_replicate (n : Nat) (a : Int) (hlo : -32768 ≤ a) (hhi : a ≤ 32767) :
    isInt16Frame (List.replicate n a) := by
  intro s hs
  rw [List.eq_of_mem_replicate hs]
  exact ⟨hlo, hhi⟩

theorem specEnergy_replicate (n : Nat) (a : Int) :
    specEnergy (List.replicate n a) = (n : Int) * (a * a) := by
  simp [specEnergy]

theorem specEnergy_take_replicate (n k : Nat) (a : Int) (h : k ≤ n) :
    specEnergy ((List.replicate n a).take k) = (k : Int) * (a * a) := by
  rw [List.take_replicate, Nat.min_eq_left h, specEnergy_replicate]

theorem length_replicate_cast (n : Nat) (a : Int) :
    ((List.replicate n a).length : Int) = (n : Int) := by
  rw [List.length_replicate]

/-- The call has no defined result exactly when the energy loop is reached with
a buffer that holds fewer than `frame_size` samples. -/
theorem nativeProcessFrame_eq_none_iff (env : JNIEnv) (vad_handle : VadHandle)
    (audio_frame : jshortArray) (frame_size : Int) :
    nativeProcessFrame env vad_handle audio_frame frame_size = none ↔
      ∃ inst frame, vad_handle = some inst ∧ audio_frame = some frame ∧
        inst.initialized = true ∧ env.elementsUnavailable = false ∧
        supportedFrameLength frame_size ∧ (frame.length : Int) < frame_size := by
  constructor
  · intro hnone
    cases vad_handle with
    | none => simp [nativeProcessFrame] at hnone
    | some inst =>
      cases audio_frame with
      | none => simp [nativeProcessFrame] at hnone
      | some frame =>
        by_cases hsup : supportedFrameLength frame_size
        · cases hinit : inst.initialized with
          | false =>
            rw [nativeProcessFrame_uninitialized env inst (some frame) frame_size hinit] at hnone
            simp at hnone
          | true =>
            cases henv : env.elementsUnavailable with
            | true =>
              simp [nativeProcessFrame, JNIEnv.GetShortArrayElements, henv] at hnone
            | false =>
              rw [nativeProcessFrame_initialized env inst frame frame_size henv hinit hsup,
                Option.map_eq_none', energyLoop_eq_none_iff frame _ 0 0 (Nat.zero_le _)] at hnone
              have hn := supportedFrameLength_toNat_le frame_size hsup
              exact ⟨inst, frame, rfl, rfl, hinit, rfl, hsup, by omega⟩
        · rw [nativeProcessFrame_default_case env (some inst) (some frame) frame_size
            (sampleRateOfFrameSize_eq_none frame_size hsup)] at hnone
          simp at hnone
  · rintro ⟨inst, frame, rfl, rfl, hinit, henv, hsup, hshort⟩
    have hn := supportedFrameLength_toNat_le frame_size hsup
    rw [nativeProcessFrame_initialized env inst frame frame_size henv hinit hsup,
      Option.map_eq_none', energyLoop_eq_none_iff frame _ 0 0 (Nat.zero_le _)]
    omega

/-- Whatever value the call returns, the object it returns is the object it was given. -/
theorem nativeProcessFrame_snd (env : JNIEnv) (vad_handle : VadHandle)
    (audio_frame : jshortArray) (frame_size : Int) (r : Int) (vad : VadHandle)
    (h : nativeProcessFrame env vad_handle audio_frame frame_size = some (r, vad)) :
    vad = vad_handle := by
  cases vad_handle with
  | none =>
    simp only [nativeProcessFrame, Option.some.injEq, Prod.mk.injEq] at h
    exact h.2.symm
  | some inst =>
    cases audio_frame with
    | none =>
      simp only [nativeProcessFrame, Option.some.injEq, Prod.mk.injEq] at h
      exact h.2.symm
    | some frame =>
      by_cases hsup : supportedFrameLength frame_size
      · cases hinit : inst.initialized with
        | false =>
          rw [nativeProcessFrame_uninitialized env inst (some frame) frame_size hinit] at h
          simp only [Option.some.injEq, Prod.mk.injEq] at h
          exact h.2.symm
        | true =>
          cases henv : env.elementsUnavailable with
          | true =>
            simp only [nativeProcessFrame, JNIEnv.GetShortArrayElements, henv, if_true,
              Option.some.injEq, Prod.mk.injEq] at h
            exact h.2.symm
          | false =>
            rw [nativeProcessFrame_initialized env inst frame frame_size henv hinit hsup] at h
            cases hloop : energyLoop frame frame_size.toNat 0 0 with
            | none => simp [hloop] at h
            | some energy =>
              simp only [hloop, Option.map_some', Option.some.injEq, Prod.mk.injEq] at h
              exact h.2.symm
      · rw [nativeProcessFrame_default_case env (some inst) (some frame) frame_size
          (sampleRateOfFrameSize_eq_none frame_size hsup)] at h
        simp only [Option.some.injEq, Prod.mk.injEq] at h
        exact h.2.symm

/-- On an initialized instance the outcome of the call, the returned object
apart, is a function of the mode, the buffer, the frame length and the
availability of the elements. -/
theorem nativeProcessFrame_fst_of_mode (env : JNIEnv) (a b : WebRtcVadInst)
    (audio_frame : jshortArray) (frame_size : Int) (ha : a.initialized = true)
    (hb : b.initialized = true) (hmode : a.mode = b.mode) :
    (nativeProcessFrame env (some a) audio_frame frame_size).map Prod.fst
      = (nativeProcessFrame env (some b) audio_frame frame_size).map Prod.fst := by
  cases audio_frame with
  | none => rfl
  | some frame =>
    by_cases hsup : supportedFrameLength frame_size
    · cases henv : env.elementsUnavailable with
      | true => simp [nativeProcessFrame, JNIEnv.GetShortArrayElements, henv]
      | false =>
        rw [nativeProcessFrame_initialized env a frame frame_size henv ha hsup,
          nativeProcessFrame_initialized env b frame frame_size henv hb hsup, hmode]
        simp [Option.map_map, Function.comp_def]
    · rw [nativeProcessFrame_default_case env (some a) (some frame) frame_size
          (sampleRateOfFrameSize_eq_none frame_size hsup),
        nativeProcessFrame_default_case env (some b) (some frame) frame_size
          (sampleRateOfFrameSize_eq_none frame_size hsup)]
      rfl

/-- A call on a non-null handle that does not reach `WebRtcVad_Process` with a
buffer returns `-1`. -/
theorem nativeProcessFrame_not_reaching (env : JNIEnv) (inst : WebRtcVadInst)
    (audio_frame : jshortArray) (frame_size : Int)
    (h : ¬ ∃ frame, audio_frame = some frame ∧ env.elementsUnavailable = false ∧
      supportedFrameLength frame_size) :
    nativeProcessFrame env (some inst) audio_frame frame_size = some (-1, some inst) := by
  cases audio_frame with
  | none => rfl
  | some frame =>
    by_cases hsup : supportedFrameLength frame_size
    · cases henv : env.elementsUnavailable with
      | true => simp [nativeProcessFrame, JNIEnv.GetShortArrayElements, henv]
      | false => exact absurd ⟨frame, rfl, henv, hsup⟩ h
    · exact nativeProcessFrame_default_case env (some inst) (some frame) frame_size
        (sampleRateOfFrameSize_eq_none frame_size hsup)

/-- Every value that processFrame returns is `-1`, `0` or `1`. -/
theorem nativeProcessFrame_value (env : JNIEnv) (vad_handle : VadHandle)
    (audio_frame : jshortArray) (frame_size : Int) (r : Int) (vad : VadHandle)
    (h : nativeProcessFrame env vad_handle audio_frame frame_size = some (r, vad)) :
    r = -1 ∨ r = 0 ∨ r = 1 := by
  cases vad_handle with
  | none =>
    simp only [nativeProcessFrame, Option.some.injEq, Prod.mk.injEq] at h
    exact Or.inl h.1.symm
  | some inst =>
    cases hinit : inst.initialized with
    | false =>
      rw [nativeProcessFrame_uninitialized env inst audio_frame frame_size hinit] at h
      simp only [Option.some.injEq, Prod.mk.injEq] at h
      exact Or.inl h.1.symm
    | true =>
      by_cases hreach : ∃ frame, audio_frame = some frame ∧ env.elementsUnavailable = false ∧
          supportedFrameLength frame_size
      · obtain ⟨frame, rfl, henv, hsup⟩ := hreach
        rw [nativeProcessFrame_initialized env inst frame frame_size henv hinit hsup] at h
        cases hloop : energyLoop frame frame_size.toNat 0 0 with
        | none => simp [hloop] at h
        | some energy =>
          simp only [hloop, Option.map_some', Option.some.injEq, Prod.mk.injEq] at h
          by_cases hgt : energy > threshold inst.mode
          · rw [if_pos hgt] at h
            exact Or.inr (Or.inr h.1.symm)
          · rw [if_neg hgt] at h
            exact Or.inr (Or.inl h.1.symm)
      · rw [nativeProcessFrame_not_reaching env inst audio_frame frame_size hreach] at h
        simp only [Option.some.injEq, Prod.mk.injEq] at h
        exact Or.inl h.1.symm

/-- The thresholds of the four modes grow with the mode. -/
theorem threshold_mono (m1 m2 : Int)
    (h1 : m1 = 0 ∨ m1 = 1 ∨ m1 = 2 ∨ m1 = 3) (h2 : m2 = 0 ∨ m2 = 1 ∨ m2 = 2 ∨ m2 = 3)
    (hle : m1 ≤ m2) : threshold m1 ≤ threshold m2 := by
  rcases h1 with rfl | rfl | rfl | rfl <;> rcases h2 with rfl | rfl | rfl | rfl <;>
    first
    | (exfalso; omega)
    | decide

/-- The classification of a whole frame of supported length by its exact energy. -/
theorem nativeProcessFrame_whole_frame (env : JNIEnv) (inst : WebRtcVadInst)
    (frame : List Int) (henv : env.elementsUnavailable = false)
    (hinit : inst.initialized = true) (hlen : supportedFrameLength frame.length)
    (h16 : isInt16Frame frame) :
    nativeProcessFrame env (some inst) (some frame) frame.length
      = some (if specEnergy frame > threshold inst.mode then 1 else 0, some inst) := by
  have h := nativeProcessFrame_of_enough env inst frame frame.length henv hinit hlen h16
    (le_refl _)
  rw [h]
  simp

theorem isInt16Frame_cons (a : Int) (frame : List Int) (hlo : -32768 ≤ a) (hhi : a ≤ 32767)
    (h : isInt16Frame frame) : isInt16Frame (a :: frame) := by
  intro s hs
  rcases List.mem_cons.mp hs with rfl | hmem
  · exact ⟨hlo, hhi⟩
  · exact h s hmem

theorem length_cons_replicate_cast (a b : Int) (n : Nat) :
    ((a :: List.replicate n b).length : Int) = (n : Int) + 1 := by
  rw [List.length_cons, List.length_replicate]
  push_cast
  ring

theorem length_cons_cons_replicate_cast (a b c : Int) (n : Nat) :
    ((a :: b :: List.replicate n c).length : Int) = (n : Int) + 2 := by
  rw [List.length_cons, List.length_cons, List.length_replicate]
  push_cast
  ring

theorem specThreshold_zero (thr : Int) (h : specThreshold 0 = some thr) : thr = 1000000 := by
  simpa [specThreshold] using h.symm

/-! ## Lemmas on sequences of calls -/

theorem nativeInitVad_some (inst : WebRtcVadInst) (sample_rate : Int) :
    nativeInitVad (some inst) sample_rate
      = (0, some { mode := inst.mode, sample_rate := inst.sample_rate, initialized := true }) :=
  rfl

/-- After setAggressiveness the object is the one before, or the one before
with an accepted level, which is one of 0, 1, 2, 3, as its mode. -/
theorem nativeSetAggressiveness_snd (inst : WebRtcVadInst) (aggressiveness : Int) :
    (nativeSetAggressiveness (some inst) aggressiveness).2 = some inst ∨
    ((aggressiveness = 0 ∨ aggressiveness = 1 ∨ aggressiveness = 2 ∨ aggressiveness = 3) ∧
      (nativeSetAggressiveness (some inst) aggressiveness).2
        = some { mode := aggressiveness, sample_rate := inst.sample_rate,
                 initialized := inst.initialized }) := by
  by_cases hrange : aggressiveness < 0 ∨ aggressiveness > 3
  · left
    simp [nativeSetAggressiveness, hrange]
  · cases hinit : inst.initialized with
    | false =>
      left
      simp [nativeSetAggressiveness, hrange, WebRtcVad_set_mode, hinit]
    | true =>
      right
      refine ⟨by omega, ?_⟩
      simp [nativeSetAggressiveness, hrange, WebRtcVad_set_mode, hinit]

/-- One call keeps the handle non-null and the mode among 0, 1, 2, 3. -/
theorem applyCall_mode_in_range (inst : WebRtcVadInst) (call : Call) (after : VadHandle)
    (hmode : inst.mode = 0 ∨ inst.mode = 1 ∨ inst.mode = 2 ∨ inst.mode = 3)
    (hcall : applyCall (some inst) call = some after) :
    ∃ inst2, after = some inst2 ∧
      (inst2.mode = 0 ∨ inst2.mode = 1 ∨ inst2.mode = 2 ∨ inst2.mode = 3) := by
  cases call with
  | init sample_rate =>
    simp only [applyCall, nativeInitVad_some, Option.some.injEq] at hcall
    exact ⟨_, hcall.symm, hmode⟩
  | setAggressiveness aggressiveness =>
    simp only [applyCall, Option.some.injEq] at hcall
    rcases nativeSetAggressiveness_snd inst aggressiveness with hsame | ⟨hlevel, hset⟩
    · rw [hsame] at hcall
      exact ⟨inst, hcall.symm, hmode⟩
    · rw [hset] at hcall
      exact ⟨_, hcall.symm, hlevel⟩
  | processFrame env audio_frame frame_size =>
    simp only [applyCall, Option.map_eq_some', Prod.exists, exists_eq_right] at hcall
    obtain ⟨r, hr⟩ := hcall
    have hsame := nativeProcessFrame_snd env (some inst) audio_frame frame_size r after hr
    exact ⟨inst, hsame, hmode⟩

/-- A sequence of calls keeps the handle non-null and the mode among 0, 1, 2, 3. -/
theorem applyCalls_mode_in_range (calls : List Call) :
    ∀ (inst : WebRtcVadInst) (after : VadHandle),
      (inst.mode = 0 ∨ inst.mode = 1 ∨ inst.mode = 2 ∨ inst.mode = 3) →
      applyCalls (some inst) calls = some after →
      ∃ inst2, after = some inst2 ∧
        (inst2.mode = 0 ∨ inst2.mode = 1 ∨ inst2.mode = 2 ∨ inst2.mode = 3) := by
  induction calls with
  | nil =>
    intro inst after hmode hrun
    simp only [applyCalls, Option.some.injEq] at hrun
    exact ⟨inst, hrun.symm, hmode⟩
  | cons call rest ih =>
    intro inst after hmode hrun
    simp only [applyCalls, Option.bind_eq_some] at hrun
    obtain ⟨mid, hcall, hrest⟩ := hrun
    obtain ⟨inst2, rfl, hmode2⟩ := applyCall_mode_in_range inst call mid hmode hcall
    exact ih inst2 after hmode2 hrest

theorem specThreshold_of_mode_in_range (mode : Int)
    (hmode : mode = 0 ∨ mode = 1 ∨ mode = 2 ∨ mode = 3) :
    specThreshold mode = some (threshold mode) := by
  rcases hmode with rfl | rfl | rfl | rfl <;> rfl

/-! ## Lemmas on particular frames -/

theorem specEnergy_of_all_zero (frame : List Int) (h : ∀ s ∈ frame, s = 0) :
    specEnergy frame = 0 := by
  induction frame with
  | nil => rfl
  | cons s rest ih =>
    rw [specEnergy_cons, h s (List.mem_cons_self s rest),
      ih (fun t ht => h t (List.mem_cons_of_mem s ht))]
    rfl

theorem specEnergy_of_full_scale (frame : List Int)
    (h : ∀ s ∈ frame, s = 32767 ∨ s = -32767) :
    specEnergy frame = (frame.length : Int) * 1073676289 := by
  induction frame with
  | nil => simp [specEnergy]
  | cons s rest ih =>
    rw [specEnergy_cons, ih (fun t ht => h t (List.mem_cons_of_mem s ht))]
    simp only [List.length_cons, Nat.cast_add, Nat.cast_one]
    rcases h s (List.mem_cons_self s rest) with rfl | rfl <;> ring

theorem isInt16Frame_of_all_zero (frame : List Int) (h : ∀ s ∈ frame, s = 0) :
    isInt16Frame frame := by
  intro s hs
  rw [h s hs]
  decide

theorem isInt16Frame_of_full_scale (frame : List Int)
    (h : ∀ s ∈ frame, s = 32767 ∨ s = -32767) : isInt16Frame frame := by
  intro s hs
  rcases h s hs with rfl | rfl <;> decide

theorem alternatingFrame_length (n : Nat) : (alternatingFrame n).length = n := by
  simp [alternatingFrame]

theorem alternatingFrame_full_scale (n : Nat) :
    ∀ s ∈ alternatingFrame n, s = 32767 ∨ s = -32767 := by
  intro s hs
  simp only [alternatingFrame, List.mem_map] at hs
  obtain ⟨i, -, rfl⟩ := hs
  by_cases hi : i % 2 = 0
  · left; simp [hi]
  · right; simp [hi]

/-- Every threshold that the `switch` can select lies between 1 and 8,000,000
and is even. -/
theorem threshold_bounds (mode : Int) :
    0 < threshold mode ∧ threshold mode ≤ 8000000 ∧ threshold mode % 2 = 0 := by
  unfold threshold
  split_ifs <;> decide

/-- An all-zero frame of supported length is answered with 0. -/
theorem nativeProcessFrame_all_zero (env : JNIEnv) (inst : WebRtcVadInst) (frame : List Int)
    (henv : env.elementsUnavailable = false) (hinit : inst.initialized = true)
    (hlen : supportedFrameLength frame.length) (hzero : ∀ s ∈ frame, s = 0) :
    nativeProcessFrame env (some inst) (some frame) frame.length = some (0, some inst) := by
  rw [nativeProcessFrame_whole_frame env inst frame henv hinit hlen
    (isInt16Frame_of_all_zero frame hzero), specEnergy_of_all_zero frame hzero]
  have hthr := threshold_bounds inst.mode
  rw [if_neg (by omega)]

/-- A frame of supported length whose samples all have magnitude 32767 is
answered with 1. -/
theorem nativeProcessFrame_full_scale (env : JNIEnv) (inst : WebRtcVadInst) (frame : List Int)
    (henv : env.elementsUnavailable = false) (hinit : inst.initialized = true)
    (hlen : supportedFrameLength frame.length)
    (hfull : ∀ s ∈ frame, s = 32767 ∨ s = -32767) :
    nativeProcessFrame env (some inst) (some frame) frame.length = some (1, some inst) := by
  rw [nativeProcessFrame_whole_frame env inst frame henv hinit hlen
    (isInt16Frame_of_full_scale frame hfull), specEnergy_of_full_scale frame hfull]
  have hthr := threshold_bounds inst.mode
  have hlong : (160 : Int) ≤ (frame.length : Int) := by
    rcases hlen with h | h | h | h <;> omega
  rw [if_pos (by omega)]

/-- A multiple of a supported frame length is even. -/
theorem supportedFrameLength_mul_even (n x : Int) (hsup : supportedFrameLength n) :
    (n * x) % 2 = 0 := by
  rcases hsup with rfl | rfl | rfl | rfl <;> omega

/-! ## The claims -/

/-- C1. On an initialized instance whose mode is one of 0, 1, 2, 3, and for a
frame of 16-bit samples whose length is one of 160, 320, 640, 960 (passed with
that length as frameLength, its elements handed out by the virtual machine),
processFrame returns 1 when the sum over all samples of sample * sample is
strictly greater than the threshold that the specification's table gives for
the mode, and 0 otherwise (the instance is returned as it was). -/
theorem processFrame_classifies_by_energy (env : JNIEnv) (inst : WebRtcVadInst)
    (frame : List Int) (henv : env.elementsUnavailable = false)
    (hinit : inst.initialized = true)
    (hmode : inst.mode = 0 ∨ inst.mode = 1 ∨ inst.mode = 2 ∨ inst.mode = 3)
    (hlen : supportedFrameLength frame.length) (h16 : isInt16Frame frame) :
    ∃ thr, specThreshold inst.mode = some thr ∧
      nativeProcessFrame env (some inst) (some frame) frame.length
        = some (if specEnergy frame > thr then 1 else 0, some inst) := by
  have hthr : ∃ thr, specThreshold inst.mode = some thr := by
    rcases hmode with h | h | h | h <;> simp [specThreshold, h]
  obtain ⟨thr, hthr⟩ := hthr
  refine ⟨thr, hthr, ?_⟩
  have h := nativeProcessFrame_of_enough env inst frame frame.length henv hinit hlen h16
    (le_refl _)
  rw [h, threshold_eq_of_specThreshold inst.mode thr hthr]
  simp

/-- Witness of C1: a 160-sample frame of constant amplitude 112 (energy
2,007,040) on an initialized instance in mode 1. -/
theorem processFrame_classifies_by_energy_witness :
    supportedFrameLength ((List.replicate 160 (112 : Int)).length : Nat) ∧
    isInt16Frame (List.replicate 160 112) ∧
    ∃ thr, specThreshold (1 : Int) = some thr ∧
      nativeProcessFrame ⟨false⟩ (some ⟨1, 16000, true⟩) (some (List.replicate 160 112))
          ((List.replicate 160 (112 : Int)).length : Nat)
        = some (if specEnergy (List.replicate 160 112) > thr then 1 else 0,
            some ⟨1, 16000, true⟩) :=
  ⟨by simp [supportedFrameLength], isInt16Frame_replicate 160 112 (by decide) (by decide),
    processFrame_classifies_by_energy ⟨false⟩ ⟨1, 16000, true⟩ (List.replicate 160 112) rfl rfl
      (Or.inr (Or.inl rfl)) (by simp [supportedFrameLength])
      (isInt16Frame_replicate 160 112 (by decide) (by decide))⟩

/-- C2. For every frameLength that is not one of 160, 320, 640, 960,
processFrame returns a negative status and leaves the instance as it was,
for every handle (null, created but not initialized, or initialized, in any
mode), every sample buffer and every outcome of fetching its elements. -/
theorem processFrame_rejects_unsupported_length (env : JNIEnv) (vad_handle : VadHandle)
    (audio_frame : jshortArray) (frame_size : Int)
    (hlen : ¬ supportedFrameLength frame_size) :
    ∃ status : Int, status < 0 ∧
      nativeProcessFrame env vad_handle audio_frame frame_size = some (status, vad_handle) :=
  ⟨-1, by decide,
    nativeProcessFrame_default_case env vad_handle audio_frame frame_size
      (sampleRateOfFrameSize_eq_none frame_size hlen)⟩

/-- Witness of C2: a 100-sample frame on an initialized instance in mode 3. -/
theorem processFrame_rejects_unsupported_length_witness :
    ¬ supportedFrameLength 100 ∧
    ∃ status : Int, status < 0 ∧
      nativeProcessFrame ⟨false⟩ (some ⟨3, 16000, true⟩) (some (List.replicate 100 0)) 100
        = some (status, some ⟨3, 16000, true⟩) :=
  ⟨by decide,
    processFrame_rejects_unsupported_length ⟨false⟩ (some ⟨3, 16000, true⟩)
      (some (List.replicate 100 0)) 100 (by decide)⟩

/-- C3. On an instance that is not initialized, setAggressiveness with any
level and processFrame with any sample buffer and any frame length both return a
negative status and leave mode, sample rate and the initialized flag as they
were; in particular processFrame never answers 0 or 1 there. -/
theorem uninitialized_instance_rejects_calls (env : JNIEnv) (inst : WebRtcVadInst)
    (level : Int) (audio_frame : jshortArray) (frame_size : Int)
    (hinit : inst.initialized = false) :
    (∃ status : Int, status < 0 ∧
      nativeSetAggressiveness (some inst) level = (status, some inst)) ∧
    (∃ status : Int, status < 0 ∧
      nativeProcessFrame env (some inst) audio_frame frame_size = some (status, some inst)) ∧
    (∀ vad, nativeProcessFrame env (some inst) audio_frame frame_size ≠ some (0, vad) ∧
      nativeProcessFrame env (some inst) audio_frame frame_size ≠ some (1, vad)) := by
  have hproc := nativeProcessFrame_uninitialized env inst audio_frame frame_size hinit
  refine ⟨⟨-1, by decide, ?_⟩, ⟨-1, by decide, hproc⟩, ?_⟩
  · by_cases hlevel : level < 0 ∨ level > 3
    · simp [nativeSetAggressiveness, hlevel]
    · simp [nativeSetAggressiveness, hlevel, WebRtcVad_set_mode, hinit]
  · intro vad
    rw [hproc]
    constructor <;> simp

/-- Witness of C3: the instance that create returns, level 2, and a
320-sample all-zero frame. -/
theorem uninitialized_instance_rejects_calls_witness :
    WebRtcVadInst.new.initialized = false ∧
    (∃ status : Int, status < 0 ∧
      nativeSetAggressiveness (some WebRtcVadInst.new) 2 = (status, some WebRtcVadInst.new)) ∧
    (∃ status : Int, status < 0 ∧
      nativeProcessFrame ⟨false⟩ (some WebRtcVadInst.new) (some (List.replicate 320 0)) 320
        = some (status, some WebRtcVadInst.new)) ∧
    (∀ vad,
      nativeProcessFrame ⟨false⟩ (some WebRtcVadInst.new) (some (List.replicate 320 0)) 320
        ≠ some (0, vad) ∧
      nativeProcessFrame ⟨false⟩ (some WebRtcVadInst.new) (some (List.replicate 320 0)) 320
        ≠ some (1, vad)) :=
  ⟨rfl, uninitialized_instance_rejects_calls ⟨false⟩ WebRtcVadInst.new 2
    (some (List.replicate 320 0)) 320 rfl⟩

/-- C4. On every instance, an initialized one in particular, setAggressiveness
with a level outside 0..3 returns a negative status and leaves the instance (its
mode included) as it was, and a processFrame call made afterwards returns what
it would have returned before the rejected call, for every sample buffer and
frame length. -/
theorem setAggressiveness_out_of_range_keeps_mode (env : JNIEnv) (inst : WebRtcVadInst)
    (level : Int) (audio_frame : jshortArray) (frame_size : Int)
    (hlevel : level < 0 ∨ 3 < level) :
    (∃ status : Int, status < 0 ∧
      nativeSetAggressiveness (some inst) level = (status, some inst)) ∧
    nativeProcessFrame env (nativeSetAggressiveness (some inst) level).2 audio_frame frame_size
      = nativeProcessFrame env (some inst) audio_frame frame_size := by
  have hset : nativeSetAggressiveness (some inst) level = (-1, some inst) := by
    have hlevel2 : level < 0 ∨ level > 3 := hlevel
    simp [nativeSetAggressiveness, hlevel2]
  exact ⟨⟨-1, by decide, hset⟩, by rw [hset]⟩

/-- Witness of C4: level 4 on an initialized instance in mode 2, followed by a
160-sample frame of constant amplitude 200. -/
theorem setAggressiveness_out_of_range_keeps_mode_witness :
    ((4 : Int) < 0 ∨ (3 : Int) < 4) ∧
    (∃ status : Int, status < 0 ∧
      nativeSetAggressiveness (some ⟨2, 16000, true⟩) 4 = (status, some ⟨2, 16000, true⟩)) ∧
    nativeProcessFrame ⟨false⟩ (nativeSetAggressiveness (some ⟨2, 16000, true⟩) 4).2
        (some (List.replicate 160 200)) 160
      = nativeProcessFrame ⟨false⟩ (some ⟨2, 16000, true⟩) (some (List.replicate 160 200)) 160 :=
  ⟨by decide,
    setAggressiveness_out_of_range_keeps_mode ⟨false⟩ ⟨2, 16000, true⟩ 4
      (some (List.replicate 160 200)) 160 (by decide)⟩

/-- C5. On an initialized instance, setAggressiveness with a level in
0, 1, 2, 3 returns 0 and leaves an instance whose mode is that level and whose
sample rate and initialized flag are as before. -/
theorem setAggressiveness_valid_level_sets_mode (inst : WebRtcVadInst) (level : Int)
    (hinit : inst.initialized = true)
    (hlevel : level = 0 ∨ level = 1 ∨ level = 2 ∨ level = 3) :
    nativeSetAggressiveness (some inst) level
      = (0, some { mode := level, sample_rate := inst.sample_rate,
                   initialized := inst.initialized }) := by
  have hrange : ¬ (level < 0 ∨ level > 3) := by omega
  simp [nativeSetAggressiveness, hrange, WebRtcVad_set_mode, hinit]

/-- Witness of C5: level 3 on an initialized instance in mode 1. -/
theorem setAggressiveness_valid_level_sets_mode_witness :
    ((3 : Int) = 0 ∨ (3 : Int) = 1 ∨ (3 : Int) = 2 ∨ (3 : Int) = 3) ∧
    nativeSetAggressiveness (some ⟨1, 16000, true⟩) 3 = (0, some ⟨3, 16000, true⟩) :=
  ⟨by decide,
    setAggressiveness_valid_level_sets_mode ⟨1, 16000, true⟩ 3 rfl (by decide)⟩

/-- C6. The call processFrame never changes the instance: for every handle,
every sample buffer and every frameLength, whatever value the call returns
(0, 1 or a negative status), the instance after the call, with its mode, sample
rate and initialized flag, is the instance before it.  The call returns a value
in every case but one: an initialized instance, a supported frameLength and a
buffer that holds fewer samples than frameLength, where the source reads past
the end of the buffer. -/
theorem processFrame_never_changes_instance (env : JNIEnv) (vad_handle : VadHandle)
    (audio_frame : jshortArray) (frame_size : Int) :
    (∀ (r : Int) (vad : VadHandle),
      nativeProcessFrame env vad_handle audio_frame frame_size = some (r, vad) →
        vad = vad_handle) ∧
    (nativeProcessFrame env vad_handle audio_frame frame_size = none ↔
      ∃ inst frame, vad_handle = some inst ∧ audio_frame = some frame ∧
        inst.initialized = true ∧ env.elementsUnavailable = false ∧
        supportedFrameLength frame_size ∧ (frame.length : Int) < frame_size) :=
  ⟨fun r vad h => nativeProcessFrame_snd env vad_handle audio_frame frame_size r vad h,
    nativeProcessFrame_eq_none_iff env vad_handle audio_frame frame_size⟩

/-- Witness of C6: a 160-sample frame of constant amplitude 112 on an
initialized instance in mode 1, which is classified 1. -/
theorem processFrame_never_changes_instance_witness :
    nativeProcessFrame ⟨false⟩ (some ⟨1, 8000, true⟩) (some (List.replicate 160 112)) 160
        = some (1, some ⟨1, 8000, true⟩) ∧
    (some ⟨1, 8000, true⟩ : VadHandle) = some ⟨1, 8000, true⟩ :=
  have hcall :
      nativeProcessFrame ⟨false⟩ (some ⟨1, 8000, true⟩) (some (List.replicate 160 112)) 160
        = some (1, some ⟨1, 8000, true⟩) := by
    rw [nativeProcessFrame_of_enough ⟨false⟩ ⟨1, 8000, true⟩ (List.replicate 160 112) 160 rfl rfl
      (by decide) (isInt16Frame_replicate 160 112 (by decide) (by decide))
      (by rw [length_replicate_cast]; decide)]
    have htoNat : (160 : Int).toNat = 160 := rfl
    rw [htoNat, specEnergy_take_replicate 160 160 112 (le_refl _)]
    rfl
  ⟨hcall,
    (processFrame_never_changes_instance ⟨false⟩ (some ⟨1, 8000, true⟩)
      (some (List.replicate 160 112)) 160).1 1 (some ⟨1, 8000, true⟩) hcall⟩

/-- C7. The result of processFrame depends only on the mode and the frame: two
initialized instances with the same mode, whatever their stored sample rates,
give the same outcome on the same buffer and frame length; and on one instance,
a second call made right after the first with the same frame gives the outcome
of the first. -/
theorem processFrame_depends_only_on_mode_and_frame (env : JNIEnv) (a b : WebRtcVadInst)
    (audio_frame : jshortArray) (frame_size : Int) (ha : a.initialized = true)
    (hb : b.initialized = true) (hmode : a.mode = b.mode) :
    (nativeProcessFrame env (some a) audio_frame frame_size).map Prod.fst
      = (nativeProcessFrame env (some b) audio_frame frame_size).map Prod.fst ∧
    (nativeProcessFrame env (some a) audio_frame frame_size).bind
        (fun first => nativeProcessFrame env first.2 audio_frame frame_size)
      = nativeProcessFrame env (some a) audio_frame frame_size := by
  refine ⟨nativeProcessFrame_fst_of_mode env a b audio_frame frame_size ha hb hmode, ?_⟩
  cases hcall : nativeProcessFrame env (some a) audio_frame frame_size with
  | none => rfl
  | some first =>
    obtain ⟨r, vad⟩ := first
    have hvad := nativeProcessFrame_snd env (some a) audio_frame frame_size r vad hcall
    subst hvad
    simpa using hcall

/-- Witness of C7: two initialized instances in mode 2 with stored sample rates
16000 and 8000, and a 320-sample frame of constant amplitude 300. -/
theorem processFrame_depends_only_on_mode_and_frame_witness :
    (nativeProcessFrame ⟨false⟩ (some ⟨2, 16000, true⟩) (some (List.replicate 320 300)) 320).map
        Prod.fst
      = (nativeProcessFrame ⟨false⟩ (some ⟨2, 8000, true⟩) (some (List.replicate 320 300)) 320).map
        Prod.fst ∧
    (nativeProcessFrame ⟨false⟩ (some ⟨2, 16000, true⟩) (some (List.replicate 320 300)) 320).bind
        (fun first => nativeProcessFrame ⟨false⟩ first.2 (some (List.replicate 320 300)) 320)
      = nativeProcessFrame ⟨false⟩ (some ⟨2, 16000, true⟩) (some (List.replicate 320 300)) 320 :=
  processFrame_depends_only_on_mode_and_frame ⟨false⟩ ⟨2, 16000, true⟩ ⟨2, 8000, true⟩
    (some (List.replicate 320 300)) 320 rfl rfl rfl

/-- C8, as the specification states it, fails: on an initialized instance in
mode 1, a buffer of 161 zero samples passed with frameLength 160 is not
rejected; the call returns 0, the classification of its first 160 samples. -/
theorem processFrame_length_mismatch_counterexample :
    ((List.replicate 161 (0 : Int)).length : Int) ≠ 160 ∧
    nativeProcessFrame ⟨false⟩ (some ⟨1, 16000, true⟩) (some (List.replicate 161 0)) 160
      = some (0, some ⟨1, 16000, true⟩) ∧
    ¬ ∃ status : Int, status < 0 ∧
      nativeProcessFrame ⟨false⟩ (some ⟨1, 16000, true⟩) (some (List.replicate 161 0)) 160
        = some (status, some ⟨1, 16000, true⟩) := by
  have hcall :
      nativeProcessFrame ⟨false⟩ (some ⟨1, 16000, true⟩) (some (List.replicate 161 0)) 160
        = some (0, some ⟨1, 16000, true⟩) := by
    rw [nativeProcessFrame_of_enough ⟨false⟩ ⟨1, 16000, true⟩ (List.replicate 161 0) 160 rfl rfl
      (by decide) (isInt16Frame_replicate 161 0 (by decide) (by decide))
      (by rw [length_replicate_cast]; decide)]
    have htoNat : (160 : Int).toNat = 160 := rfl
    rw [htoNat, specEnergy_take_replicate 161 160 0 (by decide)]
    rfl
  refine ⟨by rw [length_replicate_cast]; decide, hcall, ?_⟩
  rintro ⟨status, hneg, hstatus⟩
  rw [hcall] at hstatus
  simp only [Option.some.injEq, Prod.mk.injEq, and_true] at hstatus
  omega

/-- C8, amended.  The call processFrame rejects a null sample buffer with a
negative status, but it does not compare the number of samples in the buffer
with frameLength: on an initialized instance, for a supported frameLength and a
buffer of 16-bit samples that holds at least frameLength samples (also strictly
more), it returns 1 when the energy of the first frameLength samples is
strictly greater than the threshold of the current mode and 0 otherwise, and
the instance is left as it was. -/
theorem processFrame_classifies_leading_samples (env : JNIEnv) (inst : WebRtcVadInst)
    (frame : List Int) (frame_size : Int) (henv : env.elementsUnavailable = false)
    (hinit : inst.initialized = true) (hsup : supportedFrameLength frame_size)
    (h16 : isInt16Frame frame) (hlen : frame_size ≤ (frame.length : Int)) :
    (∃ status : Int, status < 0 ∧
      nativeProcessFrame env (some inst) none frame_size = some (status, some inst)) ∧
    nativeProcessFrame env (some inst) (some frame) frame_size
      = some (if specEnergy (frame.take frame_size.toNat) > threshold inst.mode then 1 else 0,
          some inst) :=
  ⟨⟨-1, by decide, rfl⟩,
    nativeProcessFrame_of_enough env inst frame frame_size henv hinit hsup h16 hlen⟩

/-- Witness of C8 as amended: 161 zero samples passed with frameLength 160. -/
theorem processFrame_classifies_leading_samples_witness :
    supportedFrameLength 160 ∧ isInt16Frame (List.replicate 161 0) ∧
    (160 : Int) ≤ ((List.replicate 161 (0 : Int)).length : Int) ∧
    (∃ status : Int, status < 0 ∧
      nativeProcessFrame ⟨false⟩ (some ⟨1, 16000, true⟩) none 160
        = some (status, some ⟨1, 16000, true⟩)) ∧
    nativeProcessFrame ⟨false⟩ (some ⟨1, 16000, true⟩) (some (List.replicate 161 0)) 160
      = some (if specEnergy ((List.replicate 161 0).take (160 : Int).toNat)
                > threshold (1 : Int) then 1 else 0,
          some ⟨1, 16000, true⟩) :=
  ⟨by decide, isInt16Frame_replicate 161 0 (by decide) (by decide),
    by rw [length_replicate_cast]; decide,
    processFrame_classifies_leading_samples ⟨false⟩ ⟨1, 16000, true⟩ (List.replicate 161 0) 160
      rfl rfl (by decide) (isInt16Frame_replicate 161 0 (by decide) (by decide))
      (by rw [length_replicate_cast]; decide)⟩

/-- C9, as the specification states it, fails: after create, a successful
initialize with sampleRateHz 8000 leaves the stored sample rate at 16000. -/
theorem initialize_sample_rate_counterexample :
    nativeInitVad nativeCreateVad 8000
      = (0, some { mode := 1, sample_rate := 16000, initialized := true }) ∧
    (16000 : Int) ≠ 8000 :=
  ⟨rfl, by decide⟩

/-- C9, amended.  A call of initialize on a non-null handle succeeds (returns 0)
for every sampleRateHz and only sets the initialized flag: the stored sample
rate after the call is the one stored before it, which is the 16000 that create
stores, whatever sampleRateHz was passed (8000, 16000, 32000, 48000 or any
other value); the mode is unchanged too. -/
theorem initialize_keeps_stored_sample_rate (inst : WebRtcVadInst) (sample_rate : Int) :
    nativeInitVad (some inst) sample_rate
      = (0, some { mode := inst.mode, sample_rate := inst.sample_rate, initialized := true }) ∧
    nativeInitVad nativeCreateVad sample_rate
      = (0, some { mode := 1, sample_rate := 16000, initialized := true }) :=
  ⟨rfl, rfl⟩

/-- C10. The energy accumulation cannot overflow: for a frame of at most 960
16-bit samples, the 64-bit accumulator after any number k of iterations of the
loop of processFrame is the exact sum of the squares of the first k samples,
that sum lies between 0 and 960 * 32768^2, and 960 * 32768^2 is below 2^63; at
the end of the loop the accumulator is the exact energy of the frame. -/
theorem energy_accumulation_never_overflows (frame : List Int) (k : Nat)
    (h16 : isInt16Frame frame) (hmax : frame.length ≤ 960) (hk : k ≤ frame.length) :
    energyLoop frame k 0 0 = some (specEnergy (frame.take k)) ∧
    0 ≤ specEnergy (frame.take k) ∧
    specEnergy (frame.take k) ≤ 960 * 32768 ^ 2 ∧
    (960 * 32768 ^ 2 : Int) < 2 ^ 63 ∧
    energyLoop frame frame.length 0 0 = some (specEnergy frame) := by
  have hpre := specEnergy_bounds (frame.take k) (isInt16Frame_take frame k h16)
  have hlen : ((frame.take k).length : Int) ≤ 960 := by
    have : (frame.take k).length ≤ 960 := by
      rw [List.length_take]
      omega
    exact_mod_cast this
  have hfull := energyLoop_start frame h16 frame.length (le_refl _) hmax
  rw [List.take_length] at hfull
  refine ⟨energyLoop_start frame h16 k hk (by omega), hpre.1, ?_, by norm_num, hfull⟩
  have h2 : (960 * 32768 ^ 2 : Int) = 960 * 1073741824 := by norm_num
  rw [h2]
  omega

/-- Witness of C10: a 960-sample frame of the extreme value -32768, after all
960 iterations. -/
theorem energy_accumulation_never_overflows_witness :
    isInt16Frame (List.replicate 960 (-32768)) ∧
    (List.replicate 960 (-32768 : Int)).length ≤ 960 ∧
    energyLoop (List.replicate 960 (-32768)) 960 0 0
      = some (specEnergy ((List.replicate 960 (-32768)).take 960)) ∧
    0 ≤ specEnergy ((List.replicate 960 (-32768)).take 960) ∧
    specEnergy ((List.replicate 960 (-32768)).take 960) ≤ 960 * 32768 ^ 2 ∧
    (960 * 32768 ^ 2 : Int) < 2 ^ 63 ∧
    energyLoop (List.replicate 960 (-32768)) (List.replicate 960 (-32768 : Int)).length 0 0
      = some (specEnergy (List.replicate 960 (-32768))) :=
  ⟨isInt16Frame_replicate 960 (-32768) (by decide) (by decide),
    le_of_eq (List.length_replicate 960 (-32768)),
    energy_accumulation_never_overflows (List.replicate 960 (-32768)) 960
      (isInt16Frame_replicate 960 (-32768) (by decide) (by decide))
      (le_of_eq (List.length_replicate 960 (-32768)))
      (le_of_eq (List.length_replicate 960 (-32768)).symm)⟩

/-- C11. The comparison against the threshold is strict: on an initialized
instance whose mode is one of 0, 1, 2, 3, a frame of 16-bit samples of supported
length whose energy is exactly the threshold of the mode is answered with 0,
and one whose energy is the threshold plus one is answered with 1. -/
theorem processFrame_threshold_is_strict (env : JNIEnv) (inst : WebRtcVadInst)
    (frame : List Int) (henv : env.elementsUnavailable = false)
    (hinit : inst.initialized = true)
    (hmode : inst.mode = 0 ∨ inst.mode = 1 ∨ inst.mode = 2 ∨ inst.mode = 3)
    (hlen : supportedFrameLength frame.length) (h16 : isInt16Frame frame) :
    ∃ thr, specThreshold inst.mode = some thr ∧
      (specEnergy frame = thr →
        nativeProcessFrame env (some inst) (some frame) frame.length = some (0, some inst)) ∧
      (specEnergy frame = thr + 1 →
        nativeProcessFrame env (some inst) (some frame) frame.length = some (1, some inst)) := by
  have hthr : ∃ thr, specThreshold inst.mode = some thr := by
    rcases hmode with h | h | h | h <;> simp [specThreshold, h]
  obtain ⟨thr, hthr⟩ := hthr
  have hcall := nativeProcessFrame_whole_frame env inst frame henv hinit hlen h16
  rw [threshold_eq_of_specThreshold inst.mode thr hthr] at hcall
  refine ⟨thr, hthr, ?_, ?_⟩
  · intro henergy
    rw [hcall, henergy]
    simp
  · intro henergy
    rw [hcall, henergy]
    simp

/-- Witness of C11: in mode 0, the 160-sample frame with one sample 1000 and
the rest 0 (energy 1,000,000) is answered with 0, and the frame with one
further sample changed to 1 (energy 1,000,001) is answered with 1. -/
theorem processFrame_threshold_is_strict_witness :
    nativeProcessFrame ⟨false⟩ (some ⟨0, 16000, true⟩) (some (1000 :: List.replicate 159 0)) 160
      = some (0, some ⟨0, 16000, true⟩) ∧
    nativeProcessFrame ⟨false⟩ (some ⟨0, 16000, true⟩)
        (some (1000 :: 1 :: List.replicate 158 0)) 160
      = some (1, some ⟨0, 16000, true⟩) := by
  have hlenA : ((1000 :: List.replicate 159 (0 : Int)).length : Int) = 160 := by
    rw [length_cons_replicate_cast]; rfl
  have hlenB : ((1000 :: 1 :: List.replicate 158 (0 : Int)).length : Int) = 160 := by
    rw [length_cons_cons_replicate_cast]; rfl
  have h16 : ∀ n : Nat, isInt16Frame (List.replicate n (0 : Int)) :=
    fun n => isInt16Frame_replicate n 0 (by decide) (by decide)
  obtain ⟨thrA, hthrA, hexact, -⟩ :=
    processFrame_threshold_is_strict ⟨false⟩ ⟨0, 16000, true⟩ (1000 :: List.replicate 159 0)
      rfl rfl (Or.inl rfl) (by rw [hlenA]; decide)
      (isInt16Frame_cons 1000 _ (by decide) (by decide) (h16 159))
  obtain ⟨thrB, hthrB, -, habove⟩ :=
    processFrame_threshold_is_strict ⟨false⟩ ⟨0, 16000, true⟩
      (1000 :: 1 :: List.replicate 158 0) rfl rfl (Or.inl rfl) (by rw [hlenB]; decide)
      (isInt16Frame_cons 1000 _ (by decide) (by decide)
        (isInt16Frame_cons 1 _ (by decide) (by decide) (h16 158)))
  rw [specThreshold_zero thrA hthrA, hlenA] at hexact
  rw [specThreshold_zero thrB hthrB, hlenB] at habove
  refine ⟨hexact ?_, habove ?_⟩
  · rw [specEnergy_cons, specEnergy_replicate]; norm_num
  · rw [specEnergy_cons, specEnergy_cons, specEnergy_replicate]; norm_num

/-- C12. Aggressiveness is monotone: for two initialized instances whose modes
m1 and m2 are among 0, 1, 2, 3 with m1 at most m2, and for every sample buffer
and frame length, a frame that processFrame answers with 1 (speech) in mode m2
is answered with 1 in mode m1, and a frame answered with 0 in mode m1 is
answered with 0 in mode m2. -/
theorem processFrame_monotone_in_mode (env : JNIEnv) (a b : WebRtcVadInst)
    (audio_frame : jshortArray) (frame_size : Int) (ha : a.initialized = true)
    (hb : b.initialized = true)
    (hma : a.mode = 0 ∨ a.mode = 1 ∨ a.mode = 2 ∨ a.mode = 3)
    (hmb : b.mode = 0 ∨ b.mode = 1 ∨ b.mode = 2 ∨ b.mode = 3)
    (hle : a.mode ≤ b.mode) :
    (nativeProcessFrame env (some b) audio_frame frame_size = some (1, some b) →
      nativeProcessFrame env (some a) audio_frame frame_size = some (1, some a)) ∧
    (nativeProcessFrame env (some a) audio_frame frame_size = some (0, some a) →
      nativeProcessFrame env (some b) audio_frame frame_size = some (0, some b)) := by
  have hthr := threshold_mono a.mode b.mode hma hmb hle
  by_cases hreach : ∃ frame, audio_frame = some frame ∧ env.elementsUnavailable = false ∧
      supportedFrameLength frame_size
  · obtain ⟨frame, rfl, henv, hsup⟩ := hreach
    rw [nativeProcessFrame_initialized env a frame frame_size henv ha hsup,
      nativeProcessFrame_initialized env b frame frame_size henv hb hsup]
    cases hloop : energyLoop frame frame_size.toNat 0 0 with
    | none => simp
    | some energy =>
      simp only [Option.map_some', Option.some.injEq, Prod.mk.injEq, and_true]
      constructor
      · intro hspeech
        have hgt : energy > threshold b.mode := by
          by_contra hnot
          rw [if_neg hnot] at hspeech
          exact absurd hspeech (by decide)
        rw [if_pos (show energy > threshold a.mode by omega)]
      · intro hsilence
        have hle2 : ¬ energy > threshold a.mode := by
          intro hgt
          rw [if_pos hgt] at hsilence
          exact absurd hsilence (by decide)
        rw [if_neg (show ¬ energy > threshold b.mode by omega)]
  · rw [nativeProcessFrame_not_reaching env a audio_frame frame_size hreach,
      nativeProcessFrame_not_reaching env b audio_frame frame_size hreach]
    constructor <;> intro h <;> simp at h

/-- Witness of C12: a 160-sample frame of constant amplitude 300 (energy
14,400,000) is speech in mode 3, hence in mode 0. -/
theorem processFrame_monotone_in_mode_witness :
    nativeProcessFrame ⟨false⟩ (some ⟨3, 16000, true⟩) (some (List.replicate 160 300)) 160
      = some (1, some ⟨3, 16000, true⟩) ∧
    nativeProcessFrame ⟨false⟩ (some ⟨0, 16000, true⟩) (some (List.replicate 160 300)) 160
      = some (1, some ⟨0, 16000, true⟩) :=
  have hcall :
      nativeProcessFrame ⟨false⟩ (some ⟨3, 16000, true⟩) (some (List.replicate 160 300)) 160
        = some (1, some ⟨3, 16000, true⟩) := by
    rw [nativeProcessFrame_of_enough ⟨false⟩ ⟨3, 16000, true⟩ (List.replicate 160 300) 160 rfl rfl
      (by decide) (isInt16Frame_replicate 160 300 (by decide) (by decide))
      (by rw [length_replicate_cast]; decide)]
    have htoNat : (160 : Int).toNat = 160 := rfl
    rw [htoNat, specEnergy_take_replicate 160 160 300 (le_refl _)]
    rfl
  ⟨hcall,
    (processFrame_monotone_in_mode ⟨false⟩ ⟨0, 16000, true⟩ ⟨3, 16000, true⟩
      (some (List.replicate 160 300)) 160 rfl rfl (Or.inl rfl) (Or.inr (Or.inr (Or.inr rfl)))
      (by decide)).1 hcall⟩

/-- C13. In every state reached from create by a sequence of initialize,
setAggressiveness (with arbitrary integer levels) and processFrame calls, the
handle is non-null and its mode is one of 0, 1, 2, 3; so the threshold that
processFrame selects there is the one of the table row of that mode and never
the one of the default branch. -/
theorem mode_in_range_in_every_reachable_state (calls : List Call) (vad_handle : VadHandle)
    (hrun : applyCalls nativeCreateVad calls = some vad_handle) :
    ∃ inst, vad_handle = some inst ∧
      (inst.mode = 0 ∨ inst.mode = 1 ∨ inst.mode = 2 ∨ inst.mode = 3) ∧
      specThreshold inst.mode = some (threshold inst.mode) := by
  obtain ⟨inst, hinst, hmode⟩ :=
    applyCalls_mode_in_range calls WebRtcVadInst.new vad_handle (Or.inr (Or.inl rfl)) hrun
  exact ⟨inst, hinst, hmode, specThreshold_of_mode_in_range inst.mode hmode⟩

/-- Witness of C13: initialize(16000), setAggressiveness(7), setAggressiveness(2),
processFrame on 320 zero samples, setAggressiveness(-1): the mode ends as 2. -/
theorem mode_in_range_in_every_reachable_state_witness :
    applyCalls nativeCreateVad
        [Call.init 16000, Call.setAggressiveness 7, Call.setAggressiveness 2,
          Call.processFrame ⟨false⟩ (some (List.replicate 320 0)) 320,
          Call.setAggressiveness (-1)]
      = some (some ⟨2, 16000, true⟩) ∧
    ∃ inst, (some ⟨2, 16000, true⟩ : VadHandle) = some inst ∧
      (inst.mode = 0 ∨ inst.mode = 1 ∨ inst.mode = 2 ∨ inst.mode = 3) ∧
      specThreshold inst.mode = some (threshold inst.mode) :=
  have hframe :
      nativeProcessFrame ⟨false⟩ (some ⟨2, 16000, true⟩) (some (List.replicate 320 0)) 320
        = some (0, some ⟨2, 16000, true⟩) := by
    rw [nativeProcessFrame_of_enough ⟨false⟩ ⟨2, 16000, true⟩ (List.replicate 320 0) 320 rfl rfl
      (by decide) (isInt16Frame_replicate 320 0 (by decide) (by decide))
      (by rw [length_replicate_cast]; decide)]
    have htoNat : (320 : Int).toNat = 320 := rfl
    rw [htoNat, specEnergy_take_replicate 320 320 0 (le_refl _)]
    rfl
  have hinit : (nativeInitVad nativeCreateVad 16000).2 = some ⟨1, 16000, true⟩ := rfl
  have hhigh : (nativeSetAggressiveness (some ⟨1, 16000, true⟩) 7).2
      = some ⟨1, 16000, true⟩ := rfl
  have htwo : (nativeSetAggressiveness (some ⟨1, 16000, true⟩) 2).2
      = some ⟨2, 16000, true⟩ := rfl
  have hlow : (nativeSetAggressiveness (some ⟨2, 16000, true⟩) (-1)).2
      = some ⟨2, 16000, true⟩ := rfl
  have hrun :
      applyCalls nativeCreateVad
          [Call.init 16000, Call.setAggressiveness 7, Call.setAggressiveness 2,
            Call.processFrame ⟨false⟩ (some (List.replicate 320 0)) 320,
            Call.setAggressiveness (-1)]
        = some (some ⟨2, 16000, true⟩) := by
    simp only [applyCalls, applyCall, Option.some_bind, hinit, hhigh, htwo, hframe,
      Option.map_some', hlow]
  ⟨hrun, mode_in_range_in_every_reachable_state _ _ hrun⟩

/-- C14, as the specification states it, fails: the instance that create
returns has 16000, one of the four sample rates, as its stored sample rate. -/
theorem create_sample_rate_counterexample :
    nativeCreateVad.map WebRtcVadInst.sample_rate = some 16000 ∧
    supportedSampleRate 16000 :=
  ⟨rfl, by decide⟩

/-- C14, amended.  The call create returns a non-null handle to a new instance
with mode = 1, initialized = false and the stored sample rate 16000. -/
theorem create_returns_default_instance :
    nativeCreateVad = some { mode := 1, sample_rate := 16000, initialized := false } :=
  rfl

/-- C15. The call initialize is idempotent: on a non-null handle and for any
sample-rate arguments, a first and a second call both return 0, and the state
after the second call is the state after the first: initialized = true, with
the mode (and the stored sample rate) as before the first call. -/
theorem initialize_is_idempotent (inst : WebRtcVadInst) (rate1 rate2 : Int) :
    nativeInitVad (some inst) rate1
      = (0, some { mode := inst.mode, sample_rate := inst.sample_rate, initialized := true }) ∧
    nativeInitVad (nativeInitVad (some inst) rate1).2 rate2
      = (0, (nativeInitVad (some inst) rate1).2) :=
  ⟨rfl, rfl⟩

/-- C16, as the specification states it, fails: destroy on a live handle
returns 0 and leaves the caller's handle referring to a destroyed object, and
destroy called again with that handle deletes the object a second time, for
which the source defines no return value. -/
theorem destroy_twice_counterexample :
    nativeDestroyVad (HandleTarget.live ⟨1, 16000, true⟩) = some (0, HandleTarget.destroyed) ∧
    nativeDestroyVad HandleTarget.destroyed = none :=
  ⟨rfl, rfl⟩

/-- C16, amended.  The call destroy returns 0 for the null handle and for every
handle that refers to a live instance; destroy followed by destroy on the null
handle returns 0 both times; and whenever destroy returns a value, that value
is 0. -/
theorem destroy_returns_zero (vad_handle : VadHandle) (target after : HandleTarget) (r : Int) :
    (∃ left, nativeDestroyVad vad_handle.target = some (0, left)) ∧
    nativeDestroyVad HandleTarget.null = some (0, HandleTarget.null) ∧
    (nativeDestroyVad HandleTarget.null).bind (fun first => nativeDestroyVad first.2)
      = some (0, HandleTarget.null) ∧
    (nativeDestroyVad target = some (r, after) → r = 0) := by
  refine ⟨?_, rfl, rfl, ?_⟩
  · cases vad_handle with
    | none => exact ⟨HandleTarget.null, rfl⟩
    | some inst => exact ⟨HandleTarget.destroyed, rfl⟩
  · intro h
    cases target with
    | null =>
      simp only [nativeDestroyVad, Option.some.injEq, Prod.mk.injEq] at h
      exact h.1.symm
    | live inst =>
      simp only [nativeDestroyVad, WebRtcVad_Free, Option.some.injEq, Prod.mk.injEq] at h
      exact h.1.symm
    | destroyed =>
      simp [nativeDestroyVad, WebRtcVad_Free] at h

/-- Witness of C16 as amended: destroy on a handle to a live, initialized
instance returns 0. -/
theorem destroy_returns_zero_witness :
    nativeDestroyVad (HandleTarget.live ⟨1, 16000, true⟩) = some (0, HandleTarget.destroyed) ∧
    (0 : Int) = 0 :=
  ⟨rfl,
    (destroy_returns_zero (some ⟨1, 16000, true⟩) (HandleTarget.live ⟨1, 16000, true⟩)
      HandleTarget.destroyed 0).2.2.2 rfl⟩

/-- C17. End to end: create, initialize(16000) and setAggressiveness(2) succeed
and leave an initialized instance in mode 2, on which processFrame answers the
320-sample all-zero frame with 0 and the 320-sample frame alternating
+32767 / -32767 with 1.  More generally, on an initialized instance in any
mode, 0, 1, 2 and 3 included, and for every supported frame length, the
all-zero frame is answered with 0 and a frame whose samples all have magnitude
32767 is answered with 1. -/
theorem end_to_end_silence_and_full_scale (env : JNIEnv) (inst : WebRtcVadInst)
    (frame : List Int) (henv : env.elementsUnavailable = false)
    (hinit : inst.initialized = true) (hlen : supportedFrameLength frame.length) :
    ((nativeInitVad nativeCreateVad 16000).1 = 0 ∧
      nativeSetAggressiveness (nativeInitVad nativeCreateVad 16000).2 2
        = (0, some ⟨2, 16000, true⟩) ∧
      nativeProcessFrame env (some ⟨2, 16000, true⟩) (some (List.replicate 320 0)) 320
        = some (0, some ⟨2, 16000, true⟩) ∧
      nativeProcessFrame env (some ⟨2, 16000, true⟩) (some (alternatingFrame 320)) 320
        = some (1, some ⟨2, 16000, true⟩)) ∧
    ((∀ s ∈ frame, s = 0) →
      nativeProcessFrame env (some inst) (some frame) frame.length = some (0, some inst)) ∧
    ((∀ s ∈ frame, s = 32767 ∨ s = -32767) →
      nativeProcessFrame env (some inst) (some frame) frame.length = some (1, some inst)) := by
  refine ⟨⟨rfl, rfl, ?_, ?_⟩, ?_, ?_⟩
  · have hzero : ∀ s ∈ List.replicate 320 (0 : Int), s = 0 :=
      fun s hs => List.eq_of_mem_replicate hs
    have hcall := nativeProcessFrame_all_zero env ⟨2, 16000, true⟩ (List.replicate 320 0) henv
      rfl (by rw [length_replicate_cast]; decide) hzero
    rw [length_replicate_cast] at hcall
    exact hcall
  · have hcall := nativeProcessFrame_full_scale env ⟨2, 16000, true⟩ (alternatingFrame 320) henv
      rfl (by rw [alternatingFrame_length]; decide) (alternatingFrame_full_scale 320)
    rw [alternatingFrame_length] at hcall
    exact hcall
  · exact nativeProcessFrame_all_zero env inst frame henv hinit hlen
  · exact nativeProcessFrame_full_scale env inst frame henv hinit hlen

/-- Witness of C17: a 960-sample frame of constant value -32767 on an
initialized instance in mode 3. -/
theorem end_to_end_silence_and_full_scale_witness :
    (∀ s ∈ List.replicate 960 (-32767 : Int), s = 32767 ∨ s = -32767) ∧
    nativeProcessFrame ⟨false⟩ (some ⟨3, 16000, true⟩) (some (List.replicate 960 (-32767)))
        ((List.replicate 960 (-32767 : Int)).length : Nat)
      = some (1, some ⟨3, 16000, true⟩) :=
  have hfull : ∀ s ∈ List.replicate 960 (-32767 : Int), s = 32767 ∨ s = -32767 :=
    fun s hs => Or.inr (List.eq_of_mem_replicate hs)
  ⟨hfull,
    (end_to_end_silence_and_full_scale ⟨false⟩ ⟨3, 16000, true⟩ (List.replicate 960 (-32767))
      rfl rfl (by rw [length_replicate_cast]; decide)).2.2 hfull⟩

/-- C18. For each of the frame lengths 160, 320, 640, 960, for every mode (0,
1, 2 and 3 in particular) and every frame of 16-bit samples of that length,
processFrame on an initialized instance returns 0 or 1, never a negative
status and never another value. -/
theorem processFrame_returns_zero_or_one (env : JNIEnv) (inst : WebRtcVadInst)
    (frame : List Int) (henv : env.elementsUnavailable = false)
    (hinit : inst.initialized = true) (hlen : supportedFrameLength frame.length)
    (h16 : isInt16Frame frame) :
    ∃ r : Int, (r = 0 ∨ r = 1) ∧
      nativeProcessFrame env (some inst) (some frame) frame.length = some (r, some inst) := by
  have hcall := nativeProcessFrame_whole_frame env inst frame henv hinit hlen h16
  by_cases hgt : specEnergy frame > threshold inst.mode
  · rw [if_pos hgt] at hcall
    exact ⟨1, Or.inr rfl, hcall⟩
  · rw [if_neg hgt] at hcall
    exact ⟨0, Or.inl rfl, hcall⟩

/-- Witness of C18: a 640-sample frame of constant amplitude 50 on an
initialized instance in mode 0. -/
theorem processFrame_returns_zero_or_one_witness :
    supportedFrameLength ((List.replicate 640 (50 : Int)).length : Nat) ∧
    isInt16Frame (List.replicate 640 50) ∧
    ∃ r : Int, (r = 0 ∨ r = 1) ∧
      nativeProcessFrame ⟨false⟩ (some ⟨0, 16000, true⟩) (some (List.replicate 640 50))
          ((List.replicate 640 (50 : Int)).length : Nat)
        = some (r, some ⟨0, 16000, true⟩) :=
  ⟨by rw [length_replicate_cast]; decide,
    isInt16Frame_replicate 640 50 (by decide) (by decide),
    processFrame_returns_zero_or_one ⟨false⟩ ⟨0, 16000, true⟩ (List.replicate 640 50) rfl rfl
      (by rw [length_replicate_cast]; decide)
      (isInt16Frame_replicate 640 50 (by decide) (by decide))⟩

/-- C19, as the specification states it, fails: in mode 0 no supported frame
length and 16-bit amplitude a give frameLength * a^2 equal to the threshold
plus one. -/
theorem constant_frame_boundary_counterexample :
    ¬ ∃ n a : Int, supportedFrameLength n ∧ -32768 ≤ a ∧ a ≤ 32767 ∧
      n * a ^ 2 = threshold 0 + 1 := by
  rintro ⟨n, a, hsup, -, -, heq⟩
  have heven := supportedFrameLength_mul_even n (a ^ 2) hsup
  have hthr : threshold 0 + 1 = 1000001 := rfl
  rw [heq, hthr] at heven
  exact absurd heven (by decide)

/-- C19, amended.  A constant frame of 16-bit value a and supported length
frameLength has energy exactly frameLength * a^2, in the accumulator of
processFrame as in exact arithmetic; but frameLength * a^2 is never equal to
the threshold of a mode plus one, nor to that threshold minus one, because
every supported frame length is even and every threshold is even. -/
theorem constant_frame_energy_misses_boundary (n : Nat) (a mode : Int)
    (hlo : -32768 ≤ a) (hhi : a ≤ 32767) (hsup : supportedFrameLength n) :
    energyLoop (List.replicate n a) n 0 0 = some ((n : Int) * a ^ 2) ∧
    specEnergy (List.replicate n a) = (n : Int) * a ^ 2 ∧
    (n : Int) * a ^ 2 ≠ threshold mode + 1 ∧
    (n : Int) * a ^ 2 ≠ threshold mode - 1 := by
  have hsq : a * a = a ^ 2 := by ring
  have hn := supportedFrameLength_toNat_le n hsup
  have hmax : n ≤ 960 := by
    have := hn.1
    simpa using this
  have hloop := energyLoop_start (List.replicate n a)
    (isInt16Frame_replicate n a hlo hhi) n (le_of_eq (List.length_replicate n a).symm) hmax
  rw [specEnergy_take_replicate n n a (le_refl _), hsq] at hloop
  have heven := supportedFrameLength_mul_even n (a ^ 2) hsup
  have hthr := threshold_bounds mode
  refine ⟨hloop, by rw [specEnergy_replicate, hsq], ?_, ?_⟩
  · intro heq
    rw [heq] at heven
    omega
  · intro heq
    rw [heq] at heven
    omega

/-- Witness of C19 as amended: the 160-sample frame of constant amplitude 79
(energy 998,560) in mode 0. -/
theorem constant_frame_energy_misses_boundary_witness :
    supportedFrameLength ((160 : Nat) : Int) ∧
    energyLoop (List.replicate 160 79) 160 0 0 = some (((160 : Nat) : Int) * 79 ^ 2) ∧
    specEnergy (List.replicate 160 79) = ((160 : Nat) : Int) * 79 ^ 2 ∧
    ((160 : Nat) : Int) * 79 ^ 2 ≠ threshold 0 + 1 ∧
    ((160 : Nat) : Int) * 79 ^ 2 ≠ threshold 0 - 1 :=
  ⟨by decide,
    constant_frame_energy_misses_boundary 160 79 0 (by decide) (by decide) (by decide)⟩

/-- C20. Every failing call of initialize, setAggressiveness and processFrame
returns exactly -1, whatever the cause: a null handle, an instance that is not
initialized, a level outside 0..3, a null sample buffer, an unsupported frame
length.  A call of initialize or setAggressiveness that does not fail returns
0, and every value that processFrame returns is -1, 0 or 1. -/
theorem failing_calls_return_minus_one (env : JNIEnv) (vad_handle after : VadHandle)
    (inst : WebRtcVadInst) (audio_frame : jshortArray)
    (frame_size level sample_rate r : Int) :
    (nativeInitVad none sample_rate = (-1, none) ∧
      (nativeInitVad (some inst) sample_rate).1 = 0) ∧
    (nativeSetAggressiveness none level = (-1, none) ∧
      (inst.initialized = false → (nativeSetAggressiveness (some inst) level).1 = -1) ∧
      (level < 0 ∨ 3 < level → (nativeSetAggressiveness (some inst) level).1 = -1) ∧
      (inst.initialized = true → 0 ≤ level ∧ level ≤ 3 →
        (nativeSetAggressiveness (some inst) level).1 = 0)) ∧
    (nativeProcessFrame env none audio_frame frame_size = some (-1, none) ∧
      nativeProcessFrame env (some inst) none frame_size = some (-1, some inst) ∧
      (inst.initialized = false →
        nativeProcessFrame env (some inst) audio_frame frame_size = some (-1, some inst)) ∧
      (¬ supportedFrameLength frame_size →
        nativeProcessFrame env vad_handle audio_frame frame_size = some (-1, vad_handle)) ∧
      (nativeProcessFrame env vad_handle audio_frame frame_size = some (r, after) →
        r = -1 ∨ r = 0 ∨ r = 1)) := by
  refine ⟨⟨rfl, rfl⟩, ⟨rfl, ?_, ?_, ?_⟩, ⟨rfl, rfl, ?_, ?_, ?_⟩⟩
  · intro hinit
    by_cases hrange : level < 0 ∨ level > 3
    · simp [nativeSetAggressiveness, hrange]
    · simp [nativeSetAggressiveness, hrange, WebRtcVad_set_mode, hinit]
  · intro hlevel
    have hrange : level < 0 ∨ level > 3 := hlevel
    simp [nativeSetAggressiveness, hrange]
  · intro hinit hlevel
    have hrange : ¬ (level < 0 ∨ level > 3) := by omega
    simp [nativeSetAggressiveness, hrange, WebRtcVad_set_mode, hinit]
  · exact nativeProcessFrame_uninitialized env inst audio_frame frame_size
  · intro hlen
    exact nativeProcessFrame_default_case env vad_handle audio_frame frame_size
      (sampleRateOfFrameSize_eq_none frame_size hlen)
  · exact nativeProcessFrame_value env vad_handle audio_frame frame_size r after

/-- Witness of C20: on the instance that create returns, setAggressiveness(5)
and processFrame with a 100-sample frame both return -1. -/
theorem failing_calls_return_minus_one_witness :
    (nativeSetAggressiveness (some WebRtcVadInst.new) 5).1 = -1 ∧
    nativeProcessFrame ⟨false⟩ (some WebRtcVadInst.new) (some (List.replicate 100 0)) 100
      = some (-1, some WebRtcVadInst.new) :=
  have hall := failing_calls_return_minus_one ⟨false⟩ (some WebRtcVadInst.new)
    (some WebRtcVadInst.new) WebRtcVadInst.new (some (List.replicate 100 0)) 100 5 16000 (-1)
  ⟨hall.2.1.2.2.1 (by decide), hall.2.2.2.2.2.1 (by decide)⟩

end Pausify
